import Mathlib

/-!
Shallow embedding of `src/account/command/auth/flow.rs` (himalaya OAuth 2.0
authorization-code flow with PKCE), together with the parts of the crate it
depends on that are specified but not present in the source tree (the
`AuthError` enum, `ProviderConfig`, and the device-authorization polling
loop), modelled from the specification where so noted.

Randomness (`rand::thread_rng` + `gen_range(0..PKCE_CHARSET.len())`) is
embedded as an explicit stream of in-range indices `Nat → Fin PKCE_CHARSET.length`.
Terminal and network I/O are embedded as explicit inputs (the line read from
stdin, the HTTP outcome of the token POST), and `execute` additionally
returns the trace of externally visible actions it performed.
-/

namespace Himalaya

/-- Characters allowed in PKCE code verifier (RFC 7636):
`b"ABCDEFGHIJKLMNOPQRSTUVWXYZabcdefghijklmnopqrstuvwxyz0123456789-._~"`. -/
def PKCE_CHARSET : List Char :=
  "ABCDEFGHIJKLMNOPQRSTUVWXYZabcdefghijklmnopqrstuvwxyz0123456789-._~".data

/-! ### SHA-256 (the `sha2` crate's `Sha256`), over byte lists (`Nat` values < 256) -/

/-- The word modulus of SHA-256, 2^32. -/
def w32 : Nat := 4294967296

/-- Right rotation of a 32-bit word. -/
def rotr32 (n x : Nat) : Nat := ((x >>> n) ||| (x <<< (32 - n))) % w32

/-- The 64 SHA-256 round constants. -/
def shaK : List Nat :=
  [1116352408, 1899447441, 3049323471, 3921009573, 961987163,
   1508970993, 2453635748, 2870763221, 3624381080, 310598401,
   607225278, 1426881987, 1925078388, 2162078206, 2614888103,
   3248222580, 3835390401, 4022224774, 264347078, 604807628,
   770255983, 1249150122, 1555081692, 1996064986, 2554220882,
   2821834349, 2952996808, 3210313671, 3336571891, 3584528711,
   113926993, 338241895, 666307205, 773529912, 1294757372,
   1396182291, 1695183700, 1986661051, 2177026350, 2456956037,
   2730485921, 2820302411, 3259730800, 3345764771, 3516065817,
   3600352804, 4094571909, 275423344, 430227734, 506948616,
   659060556, 883997877, 958139571, 1322822218, 1537002063,
   1747873779, 1955562222, 2024104815, 2227730452, 2361852424,
   2428436474, 2756734187, 3204031479, 3329325298]

/-- The SHA-256 initial hash value. -/
def shaH0 : List Nat :=
  [1779033703, 3144134277, 1013904242,
   2773480762, 1359893119, 2600822924,
   528734635, 1541459225]

/-- SHA-256 padding: append `0x80`, zeros, and the 64-bit big-endian bit length. -/
def shaPad (msg : List Nat) : List Nat :=
  let len := msg.length
  let zeros := (64 - ((len + 9) % 64)) % 64
  let bitLen := 8 * len
  msg ++ [0x80] ++ List.replicate zeros 0 ++
    [(bitLen >>> 56) % 256, (bitLen >>> 48) % 256, (bitLen >>> 40) % 256,
     (bitLen >>> 32) % 256, (bitLen >>> 24) % 256, (bitLen >>> 16) % 256,
     (bitLen >>> 8) % 256, bitLen % 256]

/-- Split a byte list into 64-byte blocks. -/
def toBlocks (l : List Nat) : List (List Nat) :=
  if l.isEmpty then []
  else l.take 64 :: toBlocks (l.drop 64)
  termination_by l.length
  decreasing_by
    simp [List.isEmpty_iff] at *
    cases l with
    | nil => simp_all
    | cons a l => simp [Nat.lt_succ_iff]

/-- Big-endian 32-bit words from a 64-byte block. -/
def blockWords (b : List Nat) : List Nat :=
  (List.range 16).map fun i =>
    (b.getD (4*i) 0) <<< 24 + (b.getD (4*i+1) 0) <<< 16 +
    (b.getD (4*i+2) 0) <<< 8 + b.getD (4*i+3) 0

/-- Extend 16 words to the 64-word message schedule. -/
def schedule (ws : List Nat) : List Nat :=
  (List.range 48).foldl
    (fun w _ =>
      let i := w.length
      let s0 :=
        (rotr32 7 (w.getD (i-15) 0)) ^^^ (rotr32 18 (w.getD (i-15) 0)) ^^^
        ((w.getD (i-15) 0) >>> 3)
      let s1 :=
        (rotr32 17 (w.getD (i-2) 0)) ^^^ (rotr32 19 (w.getD (i-2) 0)) ^^^
        ((w.getD (i-2) 0) >>> 10)
      w ++ [(w.getD (i-16) 0 + s0 + w.getD (i-7) 0 + s1) % w32])
    ws

/-- One SHA-256 compression round state: the eight working variables. -/
structure ShaState where
  a : Nat
  b : Nat
  c : Nat
  d : Nat
  e : Nat
  f : Nat
  g : Nat
  h : Nat

/-- The SHA-256 compression of one 64-byte block into the running hash. -/
def compress (hs : List Nat) (block : List Nat) : List Nat :=
  let w := schedule (blockWords block)
  let st0 : ShaState :=
    ⟨hs.getD 0 0, hs.getD 1 0, hs.getD 2 0, hs.getD 3 0,
     hs.getD 4 0, hs.getD 5 0, hs.getD 6 0, hs.getD 7 0⟩
  let st := (List.range 64).foldl
    (fun st i =>
      let S1 := (rotr32 6 st.e) ^^^ (rotr32 11 st.e) ^^^ (rotr32 25 st.e)
      let ch := (st.e &&& st.f) ^^^ ((w32 - 1 - st.e) &&& st.g)
      let t1 := (st.h + S1 + ch + shaK.getD i 0 + w.getD i 0) % w32
      let S0 := (rotr32 2 st.a) ^^^ (rotr32 13 st.a) ^^^ (rotr32 22 st.a)
      let mj := (st.a &&& st.b) ^^^ (st.a &&& st.c) ^^^ (st.b &&& st.c)
      let t2 := (S0 + mj) % w32
      ⟨(t1 + t2) % w32, st.a, st.b, st.c, (st.d + t1) % w32, st.e, st.f, st.g⟩)
    st0
  [(hs.getD 0 0 + st.a) % w32, (hs.getD 1 0 + st.b) % w32,
   (hs.getD 2 0 + st.c) % w32, (hs.getD 3 0 + st.d) % w32,
   (hs.getD 4 0 + st.e) % w32, (hs.getD 5 0 + st.f) % w32,
   (hs.getD 6 0 + st.g) % w32, (hs.getD 7 0 + st.h) % w32]

/-- SHA-256 digest of a byte list, as 32 bytes. -/
def sha256 (msg : List Nat) : List Nat :=
  let final := (toBlocks (shaPad msg)).foldl compress shaH0
  final.flatMap fun wd => [(wd >>> 24) % 256, (wd >>> 16) % 256, (wd >>> 8) % 256, wd % 256]

/-- UTF-8 bytes of a string; the verifier is ASCII so this is just the code points.
(`Sha256::update(&verifier)` hashes the UTF-8 bytes of the string.) -/
def strBytes (s : String) : List Nat := s.data.map Char.toNat

/-! ### base64url without padding (`base64::engine::general_purpose::URL_SAFE_NO_PAD`) -/

/-- The URL-safe base64 alphabet. -/
def B64URL_CHARS : List Char :=
  "ABCDEFGHIJKLMNOPQRSTUVWXYZabcdefghijklmnopqrstuvwxyz0123456789-_".data

/-- The URL-safe base64 character for a 6-bit value. -/
def b64Char (n : Nat) : Char := B64URL_CHARS.getD (n % 64) 'A'

/-- Encode a byte list in base64url, 3 bytes to 4 characters, no padding. -/
def b64UrlEncodeAux : List Nat → List Char
  | [] => []
  | [b0] => [b64Char (b0 / 4), b64Char ((b0 % 4) * 16)]
  | [b0, b1] =>
      [b64Char (b0 / 4), b64Char ((b0 % 4) * 16 + b1 / 16), b64Char ((b1 % 16) * 4)]
  | b0 :: b1 :: b2 :: rest =>
      b64Char (b0 / 4) :: b64Char ((b0 % 4) * 16 + b1 / 16) ::
      b64Char ((b1 % 16) * 4 + b2 / 64) :: b64Char (b2 % 64) ::
      b64UrlEncodeAux rest

/-- base64url-encode with no padding (`URL_SAFE_NO_PAD.encode`). -/
def base64_url_no_pad (bs : List Nat) : String := ⟨b64UrlEncodeAux bs⟩

/-! ### PKCE pair and CSRF state generation -/

/-- Embedding of `OAuthFlow::generate_pkce_pair`: draw 128 characters from `PKCE_CHARSET`
(the random index stream replaces `rng.gen_range(0..PKCE_CHARSET.len())`),
SHA-256 the verifier, base64url-encode the digest without padding.
Returns `(challenge, verifier)`. -/
def generate_pkce_pair (rng : Nat → Fin PKCE_CHARSET.length) : String × String :=
  let verifier : String := ⟨(List.range 128).map fun i => PKCE_CHARSET.get (rng i)⟩
  let hash := sha256 (strBytes verifier)
  let challenge := base64_url_no_pad hash
  (challenge, verifier)

/-- Embedding of `OAuthFlow::generate_state`: 32 characters drawn from `PKCE_CHARSET`. -/
def generate_state (rng : Nat → Fin PKCE_CHARSET.length) : String :=
  ⟨(List.range 32).map fun i => PKCE_CHARSET.get (rng i)⟩

/-! ### `urlencoding::encode` -/

/-- A character the `urlencoding` crate leaves unescaped:
ASCII alphanumerics and `-`, `.`, `_`, `~`. -/
def urlUnreserved (c : Char) : Bool :=
  (('A' ≤ c && c ≤ 'Z') || ('a' ≤ c && c ≤ 'z') || ('0' ≤ c && c ≤ '9') ||
   c == '-' || c == '.' || c == '_' || c == '~')

/-- Uppercase hex digit for a value below 16. -/
def hexDigit (n : Nat) : Char := "0123456789ABCDEF".data.getD (n % 16) '0'

/-- UTF-8 bytes of one character. -/
def utf8Bytes (c : Char) : List Nat :=
  let n := c.toNat
  if n < 0x80 then [n]
  else if n < 0x800 then [0xC0 + n / 64, 0x80 + n % 64]
  else if n < 0x10000 then
    [0xE0 + n / 4096, 0x80 + (n / 64) % 64, 0x80 + n % 64]
  else
    [0xF0 + n / 262144, 0x80 + (n / 4096) % 64, 0x80 + (n / 64) % 64, 0x80 + n % 64]

/-- Embedding of `urlencoding::encode`: percent-encode every UTF-8 byte of every character
outside the unreserved set, with uppercase hex. -/
def urlencode (s : String) : String :=
  ⟨s.data.flatMap fun c =>
    if urlUnreserved c then [c]
    else (utf8Bytes c).flatMap fun b => ['%', hexDigit (b / 16), hexDigit (b % 16)]⟩

/-! ### Rust `str::trim` -/

/-- Rust `char::is_whitespace`: the Unicode `White_Space` code points. -/
def rustIsWhitespace (c : Char) : Bool :=
  let n := c.toNat
  (0x09 ≤ n && n ≤ 0x0D) || n == 0x20 || n == 0x85 || n == 0xA0 || n == 0x1680 ||
  (0x2000 ≤ n && n ≤ 0x200A) || n == 0x2028 || n == 0x2029 || n == 0x202F ||
  n == 0x205F || n == 0x3000

/-- Rust `str::trim`: strip leading and trailing `White_Space` characters. -/
def rust_trim (s : String) : String :=
  ⟨((s.data.dropWhile rustIsWhitespace).reverse.dropWhile rustIsWhitespace).reverse⟩

/-! ### Error and configuration types

The enum `AuthError` lives in `super::error`, which is not in the source
tree; its variants are modelled from the specification (§7) and from the
constructors `flow.rs` applies. -/

/-- Modelled from the spec: `AuthError` (in `super::error`, absent from the
source tree) with kinds `NetworkError`, `TokenExchangeFailed`,
`CallbackTimeout`, `UserCancelled`, `ConfigError`; the payloads of the three
variants `flow.rs` constructs are the diagnostic strings it passes. -/
inductive AuthError where
  | NetworkError (msg : String)
  | TokenExchangeFailed (msg : String)
  | CallbackTimeout
  | UserCancelled
  | ConfigError (msg : String)
  deriving Repr, DecidableEq

/-- Modelled from the spec: `ProviderConfig` (in `super::provider`, absent
from the source tree) supplies the authorization, token and
device-authorization endpoint URLs and the scope list. -/
structure ProviderConfig where
  auth_url : String
  token_url : String
  device_auth_url : String
  scopes : List String

/-- Modelled from the spec: `ProviderConfig::scopes_str` joins the scopes
with single spaces ("space-joined"). -/
def ProviderConfig.scopes_str (c : ProviderConfig) : String :=
  String.intercalate (" ") c.scopes

/-- The struct `OAuthFlow`: the authorization-code flow handler. `provider.config()` is
modelled by storing the `ProviderConfig` the provider supplies. -/
structure OAuthFlow where
  provider_config : ProviderConfig
  client_id : String
  client_secret : String

/-- The struct `OAuthTokens`: tokens returned from the authorization server. -/
structure OAuthTokens where
  access_token : String
  refresh_token : Option String
  expires_in : Option Nat
  deriving Repr, DecidableEq

/-- The struct `TokenResponse`: the deserialization target for the token endpoint body
(`access_token` required, `refresh_token` and `expires_in` defaulted). -/
structure TokenResponse where
  access_token : String
  refresh_token : Option String
  expires_in : Option Nat
  deriving Repr, DecidableEq

/-! ### JSON values and `serde_json` deserialization of `TokenResponse`

`reqwest::Response::json::<TokenResponse>()` parses the body with
`serde_json` (RFC 8259 grammar; numbers carrying a fraction or exponent are
floats and do not deserialize to `u64`) and maps it onto the struct with
serde defaults for the two optional fields. -/

/-- A JSON value; a number records its sign, the integer magnitude of its
digits, and whether it is a plain integer (no fraction or exponent). -/
inductive Json where
  | null
  | bool (b : Bool)
  | num (neg : Bool) (mag : Nat) (isInt : Bool)
  | str (s : String)
  | arr (elems : List Json)
  | obj (fields : List (String × Json))

/-- JSON insignificant whitespace. -/
def skipWs (cs : List Char) : List Char :=
  cs.dropWhile fun c => c == ' ' || c == '\t' || c == '\n' || c == '\r'

/-- Value of one hex digit. -/
def hexVal (c : Char) : Option Nat :=
  if '0' ≤ c && c ≤ '9' then some (c.toNat - 48)
  else if 'a' ≤ c && c ≤ 'f' then some (c.toNat - 87)
  else if 'A' ≤ c && c ≤ 'F' then some (c.toNat - 55)
  else none

/-- Four hex digits, as in a `\uXXXX` escape. -/
def parseHex4 : List Char → Option (Nat × List Char)
  | a :: b :: c :: d :: rest => do
    let x ← hexVal a
    let y ← hexVal b
    let z ← hexVal c
    let w ← hexVal d
    some (x * 4096 + y * 256 + z * 16 + w, rest)
  | _ => none

/-- Body of a JSON string after the opening quote: handles the escape
sequences, surrogate pairs in `\u` escapes, and rejects raw control
characters. -/
def parseStringBody : Nat → List Char → List Char → Option (String × List Char)
  | 0, _, _ => none
  | Nat.succ fuel, cs, acc =>
    match cs with
    | [] => none
    | '"' :: rest => some (⟨acc.reverse⟩, rest)
    | '\\' :: e :: rest =>
      match e with
      | '"' => parseStringBody fuel rest ('"' :: acc)
      | '\\' => parseStringBody fuel rest ('\\' :: acc)
      | '/' => parseStringBody fuel rest ('/' :: acc)
      | 'b' => parseStringBody fuel rest (Char.ofNat 8 :: acc)
      | 'f' => parseStringBody fuel rest (Char.ofNat 12 :: acc)
      | 'n' => parseStringBody fuel rest ('\n' :: acc)
      | 'r' => parseStringBody fuel rest ('\r' :: acc)
      | 't' => parseStringBody fuel rest ('\t' :: acc)
      | 'u' =>
        match parseHex4 rest with
        | none => none
        | some (n, r2) =>
          if 0xD800 ≤ n && n < 0xDC00 then
            match r2 with
            | '\\' :: 'u' :: r3 =>
              match parseHex4 r3 with
              | some (m, r4) =>
                if 0xDC00 ≤ m && m < 0xE000 then
                  parseStringBody fuel r4
                    (Char.ofNat (0x10000 + (n - 0xD800) * 1024 + (m - 0xDC00)) :: acc)
                else none
              | none => none
            | _ => none
          else if 0xDC00 ≤ n && n < 0xE000 then none
          else parseStringBody fuel r2 (Char.ofNat n :: acc)
      | _ => none
    | c :: rest => if c.toNat < 0x20 then none else parseStringBody fuel rest (c :: acc)

/-- Numeric value of a digit run. -/
def digitVal (ds : List Char) : Nat := ds.foldl (fun a c => 10 * a + (c.toNat - 48)) 0

/-- Optional JSON fraction part; reports whether one was present. -/
def parseFrac (cs : List Char) : Option (Bool × List Char) :=
  match cs with
  | '.' :: r =>
    if (r.takeWhile Char.isDigit).isEmpty then none
    else some (true, r.dropWhile Char.isDigit)
  | _ => some (false, cs)

/-- Optional JSON exponent part; reports whether one was present. -/
def parseExp (cs : List Char) : Option (Bool × List Char) :=
  match cs with
  | c :: r =>
    if c == 'e' || c == 'E' then
      let r2 := match r with
        | s :: r3 => if s == '+' || s == '-' then r3 else r
        | [] => []
      if (r2.takeWhile Char.isDigit).isEmpty then none
      else some (true, r2.dropWhile Char.isDigit)
    else some (false, cs)
  | [] => some (false, [])

/-- A JSON number: optional minus, integer part without leading zeros,
optional fraction and exponent (either one makes it a float). -/
def parseNumber (cs : List Char) : Option (Json × List Char) :=
  let p := match cs with
    | '-' :: r => (true, r)
    | _ => (false, cs)
  let ds := p.2.takeWhile Char.isDigit
  if ds.isEmpty then none
  else if 1 < ds.length && ds.headD '0' == '0' then none
  else do
    let f1 ← parseFrac (p.2.dropWhile Char.isDigit)
    let f2 ← parseExp f1.2
    some (.num p.1 (digitVal ds) (!(f1.1 || f2.1)), f2.2)

mutual

/-- A JSON value, by recursive descent with explicit fuel. -/
def parseValue : Nat → List Char → Option (Json × List Char)
  | 0, _ => none
  | Nat.succ fuel, cs =>
    match skipWs cs with
    | 'n' :: 'u' :: 'l' :: 'l' :: rest => some (.null, rest)
    | 't' :: 'r' :: 'u' :: 'e' :: rest => some (.bool true, rest)
    | 'f' :: 'a' :: 'l' :: 's' :: 'e' :: rest => some (.bool false, rest)
    | '"' :: rest => (parseStringBody fuel rest []).map fun p => (.str p.1, p.2)
    | '[' :: rest =>
      (match skipWs rest with
       | ']' :: r2 => some (.arr [], r2)
       | cs2 => (parseItems fuel cs2).map fun p => (.arr p.1, p.2))
    | '{' :: rest =>
      (match skipWs rest with
       | '}' :: r2 => some (.obj [], r2)
       | cs2 => (parseMembers fuel cs2).map fun p => (.obj p.1, p.2))
    | cs2 => parseNumber cs2

/-- One or more comma-separated array elements, then `]`. -/
def parseItems : Nat → List Char → Option (List Json × List Char)
  | 0, _ => none
  | Nat.succ fuel, cs => do
    let v ← parseValue fuel cs
    match skipWs v.2 with
    | ',' :: r2 => do
      let vs ← parseItems fuel r2
      some (v.1 :: vs.1, vs.2)
    | ']' :: r2 => some ([v.1], r2)
    | _ => none

/-- One or more comma-separated object members, then `}`. -/
def parseMembers : Nat → List Char → Option (List (String × Json) × List Char)
  | 0, _ => none
  | Nat.succ fuel, cs =>
    match skipWs cs with
    | '"' :: rest => do
      let k ← parseStringBody fuel rest []
      match skipWs k.2 with
      | ':' :: r3 => do
        let v ← parseValue fuel r3
        match skipWs v.2 with
        | ',' :: r5 => do
          let ms ← parseMembers fuel r5
          some ((k.1, v.1) :: ms.1, ms.2)
        | '}' :: r5 => some ([(k.1, v.1)], r5)
        | _ => none
      | _ => none
    | _ => none

end

/-- Parse a whole JSON document: one value, nothing but whitespace after. -/
def parseJson (s : String) : Option Json :=
  match parseValue (3 * s.length + 8) s.data with
  | some (j, rest) => if (skipWs rest).isEmpty then some j else none
  | none => none

/-- How many members of an object carry the given key. -/
def countKey (fields : List (String × Json)) (k : String) : Nat :=
  fields.countP fun f => f.1 == k

/-- The value of the first member carrying the given key. -/
def findKey (fields : List (String × Json)) (k : String) : Option Json :=
  (fields.find? fun f => f.1 == k).map fun f => f.2

/-- serde `Option<String>` with `#[serde(default)]`: absent or `null` is
`None`, a string is `Some`, anything else an error. -/
def decodeOptString : Option Json → Option (Option String)
  | none => some none
  | some .null => some none
  | some (.str s) => some (some s)
  | some _ => none

/-- serde `Option<u64>` with `#[serde(default)]`: absent or `null` is
`None`, a non-negative integer that fits in `u64` is `Some`, anything else
(floats included) an error. -/
def decodeOptU64 : Option Json → Option (Option Nat)
  | none => some none
  | some .null => some none
  | some (.num neg mag isInt) =>
    if isInt && !neg && mag ≤ 18446744073709551615 then some (some mag) else none
  | some _ => none

/-- serde deserialization of `TokenResponse` from a JSON value: a JSON
object with a required string `access_token`, defaulted `refresh_token` and
`expires_in`, unknown fields ignored, duplicate known fields rejected. -/
def decodeTokenResponse (j : Json) : Option TokenResponse :=
  match j with
  | .obj fields =>
    if countKey fields ("access_token") == 1 && countKey fields ("refresh_token") ≤ 1 &&
        countKey fields ("expires_in") ≤ 1 then
      match findKey fields ("access_token") with
      | some (.str atk) => do
        let rt ← decodeOptString (findKey fields ("refresh_token"))
        let ei ← decodeOptU64 (findKey fields ("expires_in"))
        some ⟨atk, rt, ei⟩
      | _ => none
    else none
  | _ => none

/-- Embedding of `response.json::<TokenResponse>()`: parse the body text as JSON and
deserialize it into `TokenResponse`. -/
def parseTokenResponse (body : String) : Option TokenResponse :=
  (parseJson body).bind decodeTokenResponse

/-! ### Token exchange and the flow orchestration -/

/-- The struct `TokenRequest`: the JSON body POSTed to the token endpoint. -/
structure TokenRequest where
  client_id : String
  client_secret : String
  code : String
  grant_type : String
  code_verifier : String
  deriving Repr, DecidableEq

/-- The `TokenRequest` `exchange_code_for_tokens` builds and POSTs. -/
def mkTokenRequest (flow : OAuthFlow) (code code_verifier : String) : TokenRequest :=
  ⟨flow.client_id, flow.client_secret, code, "authorization_code", code_verifier⟩

/-- Outcome of one HTTP POST: either a transport-level failure
(`reqwest::Error` from `send()`) or a response with a status and body. -/
inductive HttpResult where
  | transportError (msg : String)
  | response (status : Nat) (body : String)

/-- Embedding of `reqwest::StatusCode::is_success()`: status in `200..=299`. -/
def is2xx (status : Nat) : Bool := 200 ≤ status && status ≤ 299

/-- Embedding of `OAuthFlow::exchange_code_for_tokens`, with the network embedded as an
oracle from the POSTed request to its `HttpResult`. A transport failure maps
to `NetworkError`; a non-2xx response to `TokenExchangeFailed` carrying the
response text; a 2xx body that does not deserialize to `TokenResponse` to
`TokenExchangeFailed` (the embedding elides the `serde_json` error text);
otherwise the `TokenResponse` fields become `OAuthTokens`. -/
def exchange_code_for_tokens (flow : OAuthFlow) (config : ProviderConfig)
    (code code_verifier : String) (http : TokenRequest → HttpResult) :
    Except AuthError OAuthTokens :=
  let _ := config.token_url
  match http (mkTokenRequest flow code code_verifier) with
  | .transportError e => .error (.NetworkError e)
  | .response status body =>
    if !is2xx status then
      .error (.TokenExchangeFailed ("Failed to exchange authorization code: " ++ body))
    else
      match parseTokenResponse body with
      | none => .error (.TokenExchangeFailed ("Failed to parse token response"))
      | some tr => .ok ⟨tr.access_token, tr.refresh_token, tr.expires_in⟩

/-- Embedding of `OAuthFlow::prompt_for_authorization_code`, with the stdout flush and
the stdin line read embedded as explicit outcomes. The read line is trimmed;
an empty trimmed code is a `ConfigError`. -/
def prompt_for_authorization_code (flushResult : Except String Unit)
    (readLineResult : Except String String) : Except AuthError String :=
  match flushResult with
  | .error e => .error (.ConfigError ("Failed to flush stdout: " ++ e))
  | .ok _ =>
    match readLineResult with
    | .error e => .error (.ConfigError ("Failed to read authorization code: " ++ e))
    | .ok line =>
      let code := rust_trim line
      if code = "" then .error (.ConfigError ("Authorization code cannot be empty"))
      else .ok code

/-- Embedding of `OAuthFlow::build_authorization_url`: the seven query parameters in
source order, each value percent-encoded, joined with `&` and appended to
`auth_url` after `?`. -/
def build_authorization_url (flow : OAuthFlow) (config : ProviderConfig)
    (state code_challenge : String) : Except AuthError String :=
  let params : List (String × String) :=
    [("client_id", flow.client_id),
     ("response_type", "code"),
     ("scope", config.scopes_str),
     ("state", state),
     ("code_challenge", code_challenge),
     ("code_challenge_method", "S256"),
     ("access_type", "offline")]
  let query := String.intercalate ("&") (params.map fun p => p.1 ++ "=" ++ urlencode p.2)
  .ok (config.auth_url ++ "?" ++ query)

/-- An externally visible action `execute` performs, in order. -/
inductive FlowEvent where
  | displayedUrl (url : String)
  | prompted
  | tokenRequested (req : TokenRequest)
  deriving Repr, DecidableEq

/-- The explicit inputs one `execute()` run consumes: the two random index
streams, the stdout flush and stdin read outcomes, and the network oracle. -/
structure ExecEnv where
  rngV : Nat → Fin PKCE_CHARSET.length
  rngS : Nat → Fin PKCE_CHARSET.length
  flushResult : Except String Unit
  readLineResult : Except String String
  http : TokenRequest → HttpResult

/-- Embedding of `OAuthFlow::execute`: generate the PKCE pair and state, build the URL,
display it, prompt for the pasted code, exchange it; returns the result
together with the trace of externally visible actions. -/
def execute (flow : OAuthFlow) (env : ExecEnv) : Except AuthError OAuthTokens × List FlowEvent :=
  let config := flow.provider_config
  let pair := generate_pkce_pair env.rngV
  let code_challenge := pair.1
  let code_verifier := pair.2
  let state := generate_state env.rngS
  match build_authorization_url flow config state code_challenge with
  | .error e => (.error e, [])
  | .ok auth_url =>
    match prompt_for_authorization_code env.flushResult env.readLineResult with
    | .error e => (.error e, [.displayedUrl auth_url, .prompted])
    | .ok authorization_code =>
      (exchange_code_for_tokens flow config authorization_code code_verifier env.http,
       [.displayedUrl auth_url, .prompted,
        .tokenRequested (mkTokenRequest flow authorization_code code_verifier)])

/-! ### Device-authorization polling loop

The `DeviceAuthorizationFlow` is code of this repository that is not under
`src/`; it is modelled from the specification (§3, §4.5). -/

/-- Modelled from the spec: `DeviceAuthorization`, the parsed response of
the device-code request (§3). -/
structure DeviceAuthorization where
  device_code : String
  user_code : String
  verification_url : String
  expires_in : Nat
  interval : Nat

/-- Modelled from the spec: `PollOutcome`, the tagged result of one poll (§3). -/
inductive PollOutcome where
  | Pending
  | SlowDown
  | Success (t : OAuthTokens)
  | Denied
  | Expired
  | Fatal (msg : String)

/-- Modelled from the spec: the outcome of one poll request — a
transport-level failure, or an HTTP response with its status, optional
`error` field, and token fields (§4.4, §4.5). -/
inductive DevicePollResponse where
  | transportError (msg : String)
  | httpResponse (status : Nat) (errField : Option String) (tokens : OAuthTokens)

/-- Modelled from the spec: interpretation of one poll response (§4.5) —
non-2xx is always `Fatal`; otherwise the `error` field selects the outcome,
absence meaning `Success`. -/
def interpret_poll (status : Nat) (errField : Option String) (tokens : OAuthTokens) :
    PollOutcome :=
  if !is2xx status then .Fatal ("device poll returned non-success status")
  else
    match errField with
    | none => .Success tokens
    | some ("authorization_pending") => .Pending
    | some ("slow_down") => .SlowDown
    | some ("expired_token") => .Expired
    | some ("access_denied") => .Denied
    | some e => .Fatal e

/-- Modelled from the spec: the device-flow poll loop (§4.5). Before each
poll, at loop entry, `now >= deadline` terminates with `CallbackTimeout`;
otherwise the loop waits the current interval, issues the poll, and acts on
the outcome, doubling the interval on `SlowDown`. Time is in seconds;
`fuel` bounds the iterations of this embedding (`none` = fuel exhausted);
the returned `Nat` counts the polls issued. -/
def pollLoop (fuel now deadline interval pollCount : Nat)
    (responses : Nat → DevicePollResponse) :
    Option (Except AuthError OAuthTokens × Nat) :=
  if deadline ≤ now then some (.error .CallbackTimeout, pollCount)
  else
    match fuel with
    | 0 => none
    | Nat.succ f =>
      let now2 := now + interval
      match responses pollCount with
      | .transportError m => some (.error (.NetworkError m), pollCount + 1)
      | .httpResponse status errField tokens =>
        match interpret_poll status errField tokens with
        | .Success t => some (.ok t, pollCount + 1)
        | .Pending => pollLoop f now2 deadline interval (pollCount + 1) responses
        | .SlowDown => pollLoop f now2 deadline (2 * interval) (pollCount + 1) responses
        | .Expired => some (.error .CallbackTimeout, pollCount + 1)
        | .Denied => some (.error .UserCancelled, pollCount + 1)
        | .Fatal m => some (.error (.TokenExchangeFailed m), pollCount + 1)

/-- Modelled from the spec: `DeviceAuthorizationFlow::execute` from the
point the `DeviceAuthorization` is in hand (§4.5): `deadline = now +
expires_in`, `poll_interval = max(interval, 1)`, then the poll loop. -/
def device_execute (da : DeviceAuthorization) (now fuel : Nat)
    (responses : Nat → DevicePollResponse) :
    Option (Except AuthError OAuthTokens × Nat) :=
  pollLoop fuel now (now + da.expires_in) (max da.interval 1) 0 responses

/-! ### Concrete fixtures used to instantiate theorems -/

/-- A fixed random index stream: always index 0. -/
def rng0 : Nat → Fin PKCE_CHARSET.length := fun _ => ⟨0, by decide⟩

/-- A concrete provider configuration. -/
def sampleConfig : ProviderConfig :=
  ⟨"https://auth.example/authorize", "https://auth.example/token",
   "https://auth.example/device", ["mail", "profile"]⟩

/-- A concrete flow instance. -/
def sampleFlow : OAuthFlow := ⟨sampleConfig, "client-id-0", "client-secret-0"⟩

/-- A run environment whose pasted input is whitespace only. -/
def sampleEnvBlank : ExecEnv :=
  ⟨rng0, rng0, .ok (), .ok ("   \n"),
   fun _ => .response 200 ("\x7b\"access_token\":\"tok\"\x7d")⟩

/-- A concrete device authorization that is already expired. -/
def sampleDeviceAuth : DeviceAuthorization :=
  ⟨"device-code-0", "USER-CODE", "https://auth.example/verify", 0, 5⟩

/-! ## Theorems -/

/-- Every URL-safe base64 character avoids `+`, `/` and `=`. -/
theorem b64Char_ok (n : Nat) :
    (!(b64Char n == '+') && !(b64Char n == '/') && !(b64Char n == '=')) = true := by
  have h64 : ∀ k : Fin 64,
      (!(B64URL_CHARS.getD k.val 'A' == '+') && !(B64URL_CHARS.getD k.val 'A' == '/') &&
        !(B64URL_CHARS.getD k.val 'A' == '=')) = true := by decide
  have hk : n % 64 < 64 := Nat.mod_lt _ (by decide)
  simpa [b64Char] using h64 ⟨n % 64, hk⟩

/-- Every character the base64url encoder emits avoids `+`, `/` and `=`. -/
theorem b64UrlEncodeAux_ok (bs : List Nat) :
    ((b64UrlEncodeAux bs).all fun c => !(c == '+') && !(c == '/') && !(c == '=')) = true := by
  induction bs using b64UrlEncodeAux.induct with
  | case1 => rfl
  | case2 b0 => simp [b64UrlEncodeAux, b64Char_ok]
  | case3 b0 b1 => simp [b64UrlEncodeAux, b64Char_ok]
  | case4 b0 b1 b2 rest ih => simp [b64UrlEncodeAux, b64Char_ok, ih]

/-- C1: the challenge of a generated PKCE pair is exactly the unpadded
base64url encoding of the SHA-256 digest of the verifier's bytes; the
challenge therefore depends only on the verifier (equal verifiers give equal
challenges, whatever the randomness), and no challenge character is `+`,
`/` or `=`. -/
theorem pkce_challenge_correct (rng rng2 : Nat → Fin PKCE_CHARSET.length) :
    (generate_pkce_pair rng).1 =
      base64_url_no_pad (sha256 (strBytes (generate_pkce_pair rng).2)) ∧
    ((generate_pkce_pair rng2).2 = (generate_pkce_pair rng).2 →
      (generate_pkce_pair rng2).1 = (generate_pkce_pair rng).1) ∧
    ((generate_pkce_pair rng).1.data.all fun c =>
      !(c == '+') && !(c == '/') && !(c == '=')) = true := by
  refine ⟨rfl, ?_, ?_⟩
  · intro h
    show base64_url_no_pad (sha256 (strBytes (generate_pkce_pair rng2).2)) =
      base64_url_no_pad (sha256 (strBytes (generate_pkce_pair rng).2))
    rw [h]
  · exact b64UrlEncodeAux_ok _

/-- C1 witness: the challenge equation and verifier-determinism at the
constant-zero index stream. -/
theorem pkce_challenge_correct_witness :
    (generate_pkce_pair rng0).1 =
      base64_url_no_pad (sha256 (strBytes (generate_pkce_pair rng0).2)) ∧
    (generate_pkce_pair rng0).1 = (generate_pkce_pair rng0).1 :=
  ⟨(pkce_challenge_correct rng0 rng0).1, (pkce_challenge_correct rng0 rng0).2.1 rfl⟩

/-- C2: a generated verifier has exactly 128 characters, all in `PKCE_CHARSET`. -/
theorem pkce_verifier_length_alphabet (rng : Nat → Fin PKCE_CHARSET.length) :
    (generate_pkce_pair rng).2.length = 128 ∧
    ((generate_pkce_pair rng).2.data.all fun c => PKCE_CHARSET.contains c) = true := by
  constructor
  · simp [generate_pkce_pair, String.length]
  · simp only [generate_pkce_pair, List.all_eq_true]
    intro c hc
    simp only [List.mem_map, List.mem_range] at hc
    obtain ⟨i, _, rfl⟩ := hc
    exact List.elem_iff.mpr (List.get_mem _ _ (rng i).2)

/-- C8: a generated CSRF state has exactly 32 characters, all in `PKCE_CHARSET`. -/
theorem csrf_state_length_alphabet (rng : Nat → Fin PKCE_CHARSET.length) :
    (generate_state rng).length = 32 ∧
    ((generate_state rng).data.all fun c => PKCE_CHARSET.contains c) = true := by
  constructor
  · simp [generate_state, String.length]
  · simp only [generate_state, List.all_eq_true]
    intro c hc
    simp only [List.mem_map, List.mem_range] at hc
    obtain ⟨i, _, rfl⟩ := hc
    exact List.elem_iff.mpr (List.get_mem _ _ (rng i).2)

/-- C3: `build_authorization_url` is a function of its inputs and returns
the auth URL, `?`, and the seven query parameters in the fixed source
order, each value percent-encoded independently. -/
theorem build_authorization_url_spec (flow : OAuthFlow) (config : ProviderConfig)
    (state code_challenge : String) :
    build_authorization_url flow config state code_challenge =
      .ok (config.auth_url ++ "?" ++ String.intercalate ("&")
        ["client_id=" ++ urlencode flow.client_id,
         "response_type=code",
         "scope=" ++ urlencode config.scopes_str,
         "state=" ++ urlencode state,
         "code_challenge=" ++ urlencode code_challenge,
         "code_challenge_method=S256",
         "access_type=offline"]) := by
  rfl

/-- C9: `build_authorization_url` always returns `Ok`. -/
theorem build_authorization_url_never_fails (flow : OAuthFlow) (config : ProviderConfig)
    (state code_challenge : String) :
    ∃ url, build_authorization_url flow config state code_challenge = .ok url :=
  ⟨_, rfl⟩

/-- C7 counterexample: an empty pasted code makes the prompt fail with
`ConfigError`, which is not the `UserCancelled` kind the claim requires. -/
theorem empty_input_not_user_cancelled :
    prompt_for_authorization_code (.ok ()) (.ok ("")) =
      .error (.ConfigError ("Authorization code cannot be empty")) ∧
    AuthError.ConfigError ("Authorization code cannot be empty") ≠ AuthError.UserCancelled :=
  ⟨rfl, by decide⟩

/-- C7 amended: when the prompt I/O succeeds but the pasted input trims to
the empty string, the failure is classified as `ConfigError` (message
"Authorization code cannot be empty"), not `UserCancelled`. -/
theorem empty_input_config_error (line : String) (h : rust_trim line = "") :
    prompt_for_authorization_code (.ok ()) (.ok line) =
      .error (.ConfigError ("Authorization code cannot be empty")) := by
  simp [prompt_for_authorization_code, h]

/-- C7 amended witness: a whitespace-only pasted line. -/
theorem empty_input_config_error_witness :
    prompt_for_authorization_code (.ok ()) (.ok (" \t \n")) =
      .error (.ConfigError ("Authorization code cannot be empty")) :=
  empty_input_config_error (" \t \n") (by decide)

/-- The head of `dropWhile p` never satisfies `p`. -/
theorem head?_dropWhile_false {p : Char → Bool} {l : List Char} {c : Char}
    (h : (l.dropWhile p).head? = some c) : p c = false := by
  have := List.head?_dropWhile_not p l
  rw [h] at this
  exact this

/-- The first character of a trimmed string is not whitespace. -/
theorem rust_trim_head {s : String} {c : Char}
    (h : (rust_trim s).data.head? = some c) : rustIsWhitespace c = false := by
  unfold rust_trim at h
  simp only [List.head?_reverse] at h
  set r1 := s.data.dropWhile rustIsWhitespace with hr1
  obtain ⟨t, ht⟩ := List.dropWhile_suffix (l := r1.reverse) rustIsWhitespace
  have : r1.reverse.getLast? = some c := by
    rw [← ht, List.getLast?_append, h]
    rfl
  rw [List.getLast?_reverse] at this
  exact head?_dropWhile_false (hr1 ▸ this)

/-- The last character of a trimmed string is not whitespace. -/
theorem rust_trim_last {s : String} {c : Char}
    (h : (rust_trim s).data.getLast? = some c) : rustIsWhitespace c = false := by
  unfold rust_trim at h
  simp only [List.getLast?_reverse] at h
  exact head?_dropWhile_false h

/-- C10: a successful prompt returns exactly the read line trimmed of
leading and trailing whitespace, non-empty, and with a non-whitespace first
and last character — so the code later POSTed has no surrounding whitespace. -/
theorem prompt_returns_trimmed_nonempty (flushResult : Except String Unit)
    (readLineResult : Except String String) (code : String)
    (h : prompt_for_authorization_code flushResult readLineResult = .ok code) :
    (∃ line, readLineResult = .ok line ∧ code = rust_trim line) ∧ code ≠ "" ∧
    (∀ c, code.data.head? = some c → rustIsWhitespace c = false) ∧
    (∀ c, code.data.getLast? = some c → rustIsWhitespace c = false) := by
  cases flushResult with
  | error e => simp [prompt_for_authorization_code] at h
  | ok u =>
    cases readLineResult with
    | error e => simp [prompt_for_authorization_code] at h
    | ok line =>
      simp only [prompt_for_authorization_code] at h
      by_cases hemp : rust_trim line = ""
      · rw [if_pos hemp] at h
        exact absurd h (by simp)
      · rw [if_neg hemp] at h
        obtain rfl : rust_trim line = code := by
          simpa using h
        exact ⟨⟨line, rfl, rfl⟩, hemp,
          fun c hc => rust_trim_head hc, fun c hc => rust_trim_last hc⟩

/-- C10 witness: the prompt on `"  abc \n"` returns `"abc"`, the trimmed
line, non-empty and whitespace-free at both ends. -/
theorem prompt_returns_trimmed_nonempty_witness :
    (∃ line, (Except.ok ("  abc \n") : Except String String) = .ok line ∧
      "abc" = rust_trim line) ∧ "abc" ≠ "" ∧
    (∀ c, "abc".data.head? = some c → rustIsWhitespace c = false) ∧
    (∀ c, "abc".data.getLast? = some c → rustIsWhitespace c = false) :=
  prompt_returns_trimmed_nonempty (.ok ()) (.ok ("  abc \n")) "abc" rfl

/-- C4: when the flush and read succeed but the line trims to empty,
`execute` fails with the `ConfigError` about the empty authorization code,
and its trace contains no token request — the exchange is never reached. -/
theorem execute_empty_input_config_error (flow : OAuthFlow) (env : ExecEnv)
    (line : String) (h1 : env.flushResult = .ok ()) (h2 : env.readLineResult = .ok line)
    (h3 : rust_trim line = "") :
    (execute flow env).1 = .error (.ConfigError ("Authorization code cannot be empty")) ∧
    ((execute flow env).2.all fun e =>
      match e with
      | .tokenRequested _ => false
      | _ => true) = true := by
  unfold execute
  simp [build_authorization_url, prompt_for_authorization_code, h1, h2, h3]

/-- C4 witness: a run whose pasted input is whitespace only. -/
theorem execute_empty_input_config_error_witness :
    (execute sampleFlow sampleEnvBlank).1 =
      .error (.ConfigError ("Authorization code cannot be empty")) ∧
    ((execute sampleFlow sampleEnvBlank).2.all fun e =>
      match e with
      | .tokenRequested _ => false
      | _ => true) = true :=
  execute_empty_input_config_error sampleFlow sampleEnvBlank ("   \n") rfl rfl (by decide)

/-- C6: the deadline is checked at loop entry before any poll: whenever
`deadline <= now` the loop terminates at once with `CallbackTimeout` and the
poll count is unchanged; in particular a device flow whose `expires_in` is 0
returns `CallbackTimeout` having issued zero polls, whatever the server
would have answered. -/
theorem device_flow_deadline_entry (fuel now deadline interval count : Nat)
    (responses : Nat → DevicePollResponse) (da : DeviceAuthorization)
    (now2 fuel2 : Nat) (responses2 : Nat → DevicePollResponse)
    (h : deadline ≤ now) (h2 : da.expires_in = 0) :
    pollLoop fuel now deadline interval count responses =
      some (.error .CallbackTimeout, count) ∧
    device_execute da now2 fuel2 responses2 = some (.error .CallbackTimeout, 0) := by
  constructor
  · unfold pollLoop
    simp [h]
  · unfold device_execute pollLoop
    simp [h2]

/-- C6 witness: an already-expired device authorization and a loop entered
past its deadline. -/
theorem device_flow_deadline_entry_witness :
    pollLoop 3 7 5 2 0 (fun _ => .transportError ("unreachable")) =
      some (.error .CallbackTimeout, 0) ∧
    device_execute sampleDeviceAuth 11 3 (fun _ => .transportError ("unreachable")) =
      some (.error .CallbackTimeout, 0) :=
  device_flow_deadline_entry 3 7 5 2 0 (fun _ => .transportError ("unreachable"))
    sampleDeviceAuth 11 3 (fun _ => .transportError ("unreachable"))
    (by decide) rfl

/-- C5: classification of `exchange_code_for_tokens` outcomes. A transport
failure gives `NetworkError`; a non-2xx response gives `TokenExchangeFailed`
carrying the response body; a 2xx response whose body does not deserialize
to `TokenResponse` gives `TokenExchangeFailed`; a 2xx response that does
deserialize gives the tokens. The guarding conditions are pairwise
incompatible, and `NetworkError` never equals `TokenExchangeFailed`. -/
theorem exchange_code_classification (flow : OAuthFlow) (config : ProviderConfig)
    (code code_verifier : String) (http : TokenRequest → HttpResult) :
    (∀ e, http (mkTokenRequest flow code code_verifier) = .transportError e →
      exchange_code_for_tokens flow config code code_verifier http =
        .error (.NetworkError e)) ∧
    (∀ status body, http (mkTokenRequest flow code code_verifier) = .response status body →
      is2xx status = false →
      exchange_code_for_tokens flow config code code_verifier http =
        .error (.TokenExchangeFailed ("Failed to exchange authorization code: " ++ body))) ∧
    (∀ status body, http (mkTokenRequest flow code code_verifier) = .response status body →
      is2xx status = true → parseTokenResponse body = none →
      exchange_code_for_tokens flow config code code_verifier http =
        .error (.TokenExchangeFailed ("Failed to parse token response"))) ∧
    (∀ status body tr, http (mkTokenRequest flow code code_verifier) = .response status body →
      is2xx status = true → parseTokenResponse body = some tr →
      exchange_code_for_tokens flow config code code_verifier http =
        .ok ⟨tr.access_token, tr.refresh_token, tr.expires_in⟩) ∧
    (∀ m m2, AuthError.NetworkError m ≠ AuthError.TokenExchangeFailed m2) := by
  refine ⟨?_, ?_, ?_, ?_, ?_⟩
  · intro e he
    unfold exchange_code_for_tokens
    rw [he]
  · intro status body hr h2xx
    unfold exchange_code_for_tokens
    rw [hr]
    simp [h2xx]
  · intro status body hr h2xx hp
    unfold exchange_code_for_tokens
    rw [hr]
    simp [h2xx, hp]
  · intro status body tr hr h2xx hp
    unfold exchange_code_for_tokens
    rw [hr]
    simp [h2xx, hp]
  · intro m m2 hc
    exact AuthError.noConfusion hc

/-- C5 witness: the non-2xx branch at status 500 with body `oops`. -/
theorem exchange_code_classification_witness :
    exchange_code_for_tokens sampleFlow sampleConfig ("c0") "v0"
      (fun _ => .response 500 ("oops")) =
      .error (.TokenExchangeFailed ("Failed to exchange authorization code: oops")) :=
  (exchange_code_classification sampleFlow sampleConfig ("c0") "v0"
    (fun _ => .response 500 ("oops"))).2.1 500 ("oops") rfl (by decide)

end Himalaya
